import Mathlib

/-!
# Verification of the fitbit-private-mcp daily-sync reconciliation routine

Shallow embedding of `src/worker.ts` (the `/api/sync` handler, the
`updateDailySummary` aggregator and the `postDailyHealthReport` reporter)
together with the D1 schema of `migrations/0001_create_tables.sql` and the
follow-up migration adding `vo2max_data`, `spo2_data` and `sync_state`.

Conventions of the embedding:
* SQLite `INTEGER` columns are `Int`, `REAL` columns are `ℚ`, `TEXT` is
  `String`; nullable columns are `Option _`.
* A date-keyed table (`UNIQUE(date)` plus `ON CONFLICT(date) DO UPDATE`) is
  an association list `List (String × ρ)`; `upsert` replaces the first row
  with the given date in place, or appends a fresh row at the end.
* Timestamps (`expires_at`, `Date.now()`) are `Int` milliseconds; the
  ISO-string round trip of the code is order- and value-preserving, so the
  comparison `expiresAt < new Date()` becomes `expires_at < now`.
* A fetch result is `Option payload`: `none` models `response.ok === false`
  (the branch the code skips), `some p` a parsed JSON body `p`.
* The JavaScript expression `x || d` on a numeric that may be
  `null`/`undefined` is `jsOr`/`jsOrQ` (note `0 || d = d`); `x || null` is
  `jsOrNull`/`jsOrNullQ`. `x || d` applied to a number that is never
  `null`/`undefined` is the identity on nonzero values and maps `0` to `d`,
  which for `d = 0` is the identity, so such occurrences are written as the
  bare field.
* `JSON.stringify` of a payload is modelled by storing the payload value
  itself in the row's `raw_data` field: equal payloads give equal strings.
-/

/-- JS `x || d` for a possibly-`null`/`undefined` integer `x`:
`null`, `undefined` and `0` are falsy. -/
def jsOr (x : Option Int) (d : Int) : Int :=
  match x with
  | none => d
  | some v => if v = 0 then d else v

/-- JS `x || d` for a possibly-`null`/`undefined` rational `x`. -/
def jsOrQ (x : Option ℚ) (d : ℚ) : ℚ :=
  match x with
  | none => d
  | some v => if v = 0 then d else v

/-- JS `x || null` for a possibly-`null`/`undefined` integer `x`. -/
def jsOrNull (x : Option Int) : Option Int :=
  match x with
  | none => none
  | some v => if v = 0 then none else some v

/-- JS `x || null` for a possibly-`null`/`undefined` rational `x`. -/
def jsOrNullQ (x : Option ℚ) : Option ℚ :=
  match x with
  | none => none
  | some v => if v = 0 then none else some v

/-- JS `Math.round`: round half toward positive infinity. -/
def jsRound (q : ℚ) : Int := ⌊q + 1 / 2⌋

/-! ## Fitbit API response shapes (the TypeScript interfaces of worker.ts) -/

structure FitbitDistance where
  activity : String
  distance : ℚ
  deriving DecidableEq

structure FitbitActivitySummary where
  steps : Int
  caloriesOut : Int
  distances : List FitbitDistance
  floors : Int
  sedentaryMinutes : Int
  lightlyActiveMinutes : Int
  fairlyActiveMinutes : Int
  veryActiveMinutes : Int
  deriving DecidableEq

/-- The code reads `activityData.summary` through `?.`, so the summary is
optional here even though the TS interface declares it required. -/
structure FitbitActivityResponse where
  summary : Option FitbitActivitySummary
  deriving DecidableEq

structure FitbitSleepStages where
  deep : Int
  light : Int
  rem : Int
  wake : Int
  deriving DecidableEq

structure FitbitSleepEntry where
  startTime : String
  endTime : String
  duration : Int
  efficiency : Int
  deriving DecidableEq

structure FitbitSleepSummary where
  stages : FitbitSleepStages
  deriving DecidableEq

structure FitbitSleepResponse where
  sleep : List FitbitSleepEntry
  summary : Option FitbitSleepSummary
  deriving DecidableEq

structure FitbitHeartRateZone where
  name : String
  minutes : Int
  deriving DecidableEq

structure FitbitHeartRateValue where
  restingHeartRate : Option Int
  heartRateZones : List FitbitHeartRateZone
  deriving DecidableEq

structure FitbitHeartRateDay where
  value : FitbitHeartRateValue
  deriving DecidableEq

structure FitbitHeartRateResponse where
  activitiesHeart : List FitbitHeartRateDay
  deriving DecidableEq

structure FitbitWeightEntry where
  date : String
  weight : ℚ
  bmi : ℚ
  fat : ℚ
  deriving DecidableEq

structure FitbitWeightResponse where
  weight : List FitbitWeightEntry
  deriving DecidableEq

structure FitbitCardioValue where
  vo2Max : String
  deriving DecidableEq

structure FitbitCardioScore where
  dateTime : String
  value : FitbitCardioValue
  deriving DecidableEq

structure FitbitVO2maxResponse where
  cardioScore : List FitbitCardioScore
  deriving DecidableEq

structure FitbitSpO2Value where
  avg : ℚ
  min : ℚ
  max : ℚ
  deriving DecidableEq

/-- The code guards on `if (spo2Data.value)`, so `value` is optional. -/
structure FitbitSpO2Response where
  dateTime : String
  value : Option FitbitSpO2Value
  deriving DecidableEq

/-! ## Stored rows (one structure per D1 table) -/

structure OAuthTokenRow where
  access_token : String
  refresh_token : String
  expires_at : Int
  scope : String
  deriving DecidableEq

structure ActivityRow where
  steps : Int
  calories_out : Int
  distance : ℚ
  floors : Int
  sedentary_minutes : Int
  lightly_active_minutes : Int
  fairly_active_minutes : Int
  very_active_minutes : Int
  raw_data : FitbitActivityResponse
  deriving DecidableEq

structure SleepRow where
  start_time : String
  end_time : String
  duration_minutes : Int
  efficiency : Int
  deep_minutes : Int
  light_minutes : Int
  rem_minutes : Int
  wake_minutes : Int
  raw_data : FitbitSleepResponse
  deriving DecidableEq

structure HeartRow where
  resting_heart_rate : Option Int
  out_of_range_minutes : Int
  fat_burn_minutes : Int
  cardio_minutes : Int
  peak_minutes : Int
  raw_data : FitbitHeartRateResponse
  deriving DecidableEq

structure WeightRow where
  weight : ℚ
  bmi : ℚ
  fat_percent : ℚ
  raw_data : FitbitWeightEntry
  deriving DecidableEq

structure Vo2maxRow where
  vo2max : String
  raw_data : FitbitVO2maxResponse
  deriving DecidableEq

structure Spo2Row where
  avg : ℚ
  min : ℚ
  max : ℚ
  raw_data : FitbitSpO2Response
  deriving DecidableEq

structure SummaryRow where
  steps : Int
  calories : Int
  distance : ℚ
  active_minutes : Int
  resting_heart_rate : Option Int
  sleep_duration_minutes : Int
  sleep_efficiency : Option Int
  weight : Option ℚ
  vo2max : Option String
  spo2_avg : Option ℚ
  deriving DecidableEq

/-! ## Date-keyed tables -/

/-- A date-keyed table: list of (date, row) pairs. -/
abbrev Table (ρ : Type) := List (String × ρ)

/-- `INSERT ... ON CONFLICT(date) DO UPDATE`: replace the first row keyed by
`d` in place, or append a new row. -/
def upsert {ρ : Type} : Table ρ → String → ρ → Table ρ
  | [], d, r => [(d, r)]
  | (d₀, r₀) :: t, d, r =>
    if d₀ = d then (d, r) :: t else (d₀, r₀) :: upsert t d r

/-- `SELECT * FROM tbl WHERE date = ?`: first row keyed by `d`. -/
def findRow {ρ : Type} : Table ρ → String → Option ρ
  | [], _ => none
  | (d₀, r₀) :: t, d => if d₀ = d then some r₀ else findRow t d

/-- Number of stored rows keyed by `d`. -/
def countDate {ρ : Type} : Table ρ → String → Nat
  | [], _ => 0
  | (d₀, _) :: t, d => (if d₀ = d then 1 else 0) + countDate t d

/-- The `UNIQUE(date)` constraint: no two rows share a date. -/
def wfTable {ρ : Type} (t : Table ρ) : Prop := (t.map Prod.fst).Nodup

instance {ρ : Type} (t : Table ρ) : Decidable (wfTable t) := by
  unfold wfTable; infer_instance

/-! ## The whole persisted store -/

structure DB where
  /-- `oauth_tokens` row for user `'default'` (the only user). -/
  oauth : Option OAuthTokenRow
  daily_activity : Table ActivityRow
  sleep_data : Table SleepRow
  heart_rate : Table HeartRow
  weight_data : Table WeightRow
  vo2max_data : Table Vo2maxRow
  spo2_data : Table Spo2Row
  daily_summary : Table SummaryRow
  /-- `sync_state` value for key `'slack:dailyReportDate'`. -/
  reportDate : Option String
  deriving DecidableEq

/-- The empty store (fresh migration). -/
def DB.empty : DB :=
  ⟨none, [], [], [], [], [], [], [], none⟩

/-! ## Per-domain upsert writers (worker.ts `/api/sync`, lines 387-545) -/

/-- Field projection of the activity writer (worker.ts lines 392-415). -/
def activityRowOf (r : FitbitActivityResponse) : ActivityRow :=
  { steps := jsOr (r.summary.map (·.steps)) 0
    calories_out := jsOr (r.summary.map (·.caloriesOut)) 0
    distance :=
      jsOrQ (r.summary.bind fun s =>
        (s.distances.find? (fun d => d.activity = "total")).map (·.distance)) 0
    floors := jsOr (r.summary.map (·.floors)) 0
    sedentary_minutes := jsOr (r.summary.map (·.sedentaryMinutes)) 0
    lightly_active_minutes := jsOr (r.summary.map (·.lightlyActiveMinutes)) 0
    fairly_active_minutes := jsOr (r.summary.map (·.fairlyActiveMinutes)) 0
    very_active_minutes := jsOr (r.summary.map (·.veryActiveMinutes)) 0
    raw_data := r }

/-- `if (activityResponse.ok) { ...upsert into daily_activity... }`. -/
def processActivity (db : DB) (today : String)
    (resp : Option FitbitActivityResponse) : DB :=
  match resp with
  | none => db
  | some r =>
    { db with daily_activity := upsert db.daily_activity today (activityRowOf r) }

/-- Field projection of the sleep writer (worker.ts lines 427-448); `e` is
`sleepData.sleep[0]`, `stages` is `sleepData.summary?.stages`. -/
def sleepRowOf (e : FitbitSleepEntry) (stages : Option FitbitSleepStages)
    (r : FitbitSleepResponse) : SleepRow :=
  { start_time := e.startTime
    end_time := e.endTime
    duration_minutes := jsRound ((e.duration : ℚ) / 60000)
    efficiency := e.efficiency
    deep_minutes := jsOr (stages.map (·.deep)) 0
    light_minutes := jsOr (stages.map (·.light)) 0
    rem_minutes := jsOr (stages.map (·.rem)) 0
    wake_minutes := jsOr (stages.map (·.wake)) 0
    raw_data := r }

/-- `if (sleepResponse.ok) { const sleep = sleepData.sleep?.[0]; if (sleep) ... }`. -/
def processSleep (db : DB) (today : String)
    (resp : Option FitbitSleepResponse) : DB :=
  match resp with
  | none => db
  | some r =>
    match r.sleep with
    | [] => db
    | e :: _ =>
      { db with sleep_data :=
          upsert db.sleep_data today (sleepRowOf e (r.summary.map (·.stages)) r) }

/-- Minutes of the heart-rate zone named `n`, `?.minutes || 0`. -/
def zoneMinutes (zones : List FitbitHeartRateZone) (n : String) : Int :=
  jsOr ((zones.find? (fun z => z.name = n)).map (·.minutes)) 0

/-- Field projection of the heart-rate writer (worker.ts lines 458-484);
`v` is `heartData['activities-heart'][0].value`. -/
def heartRowOf (v : FitbitHeartRateValue) (r : FitbitHeartRateResponse) : HeartRow :=
  { resting_heart_rate := jsOrNull v.restingHeartRate
    out_of_range_minutes := zoneMinutes v.heartRateZones "Out of Range"
    fat_burn_minutes := zoneMinutes v.heartRateZones "Fat Burn"
    cardio_minutes := zoneMinutes v.heartRateZones "Cardio"
    peak_minutes := zoneMinutes v.heartRateZones "Peak"
    raw_data := r }

/-- `if (heartResponse.ok) { const hrValue = ...[0]?.value; if (hrValue) ... }`. -/
def processHeart (db : DB) (today : String)
    (resp : Option FitbitHeartRateResponse) : DB :=
  match resp with
  | none => db
  | some r =>
    match r.activitiesHeart with
    | [] => db
    | hd :: _ =>
      { db with heart_rate := upsert db.heart_rate today (heartRowOf hd.value r) }

/-- Field projection of one weight entry (worker.ts lines 494-500). -/
def weightRowOf (w : FitbitWeightEntry) : WeightRow :=
  { weight := w.weight, bmi := w.bmi, fat_percent := w.fat, raw_data := w }

/-- The `for (const w of weights)` upsert loop, each entry keyed by its own
`w.date`. -/
def weightFold (t : Table WeightRow) (ws : List FitbitWeightEntry) : Table WeightRow :=
  ws.foldl (fun acc w => upsert acc w.date (weightRowOf w)) t

/-- The last entry of `ws` whose `date` field is `d` — the entry whose values
survive the upsert loop when several entries of one window share a date. -/
def lastMatch : List FitbitWeightEntry → String → Option FitbitWeightEntry
  | [], _ => none
  | e :: tl, d =>
    match lastMatch tl d with
    | some x => some x
    | none => if e.date = d then some e else none

/-- `if (weightResponse.ok) { for (const w of weightData.weight || []) ... }`. -/
def processWeight (db : DB) (resp : Option FitbitWeightResponse) : DB :=
  match resp with
  | none => db
  | some r => { db with weight_data := weightFold db.weight_data r.weight }

/-- VO2max writer (worker.ts lines 504-520): keyed by
`cardioScore[0].dateTime`, also returns `vo2maxValue` for the summary. -/
def processVo2max (db : DB) (resp : Option FitbitVO2maxResponse) :
    DB × Option String :=
  match resp with
  | none => (db, none)
  | some r =>
    match r.cardioScore with
    | [] => (db, none)
    | c :: _ =>
      ({ db with vo2max_data :=
           upsert db.vo2max_data c.dateTime ⟨c.value.vo2Max, r⟩ },
       some c.value.vo2Max)

/-- SpO2 writer (worker.ts lines 522-545): keyed by the payload's
`dateTime`, also returns `spo2Avg` for the summary. -/
def processSpo2 (db : DB) (resp : Option FitbitSpO2Response) :
    DB × Option ℚ :=
  match resp with
  | none => (db, none)
  | some r =>
    match r.value with
    | none => (db, none)
    | some v =>
      ({ db with spo2_data :=
           upsert db.spo2_data r.dateTime ⟨v.avg, v.min, v.max, r⟩ },
       some v.avg)

/-! ## Summary aggregator (worker.ts `updateDailySummary`, lines 587-640) -/

/-- Reads back the just-persisted domain rows for `date` and upserts the
denormalized `daily_summary` row. The weight read uses
`ORDER BY created_at DESC LIMIT 1`; under `UNIQUE(date)` there is at most
one row per date, so it is the plain row lookup. -/
def updateDailySummary (db : DB) (date : String)
    (vo2max : Option String) (spo2Avg : Option ℚ) : DB :=
  let activity := findRow db.daily_activity date
  let sleep := findRow db.sleep_data date
  let heart := findRow db.heart_rate date
  let weight := findRow db.weight_data date
  let activeMinutes :=
    jsOr (activity.map (·.fairly_active_minutes)) 0 +
    jsOr (activity.map (·.very_active_minutes)) 0
  let row : SummaryRow :=
    { steps := jsOr (activity.map (·.steps)) 0
      calories := jsOr (activity.map (·.calories_out)) 0
      distance := jsOrQ (activity.map (·.distance)) 0
      active_minutes := activeMinutes
      resting_heart_rate := jsOrNull (heart.bind (·.resting_heart_rate))
      sleep_duration_minutes := jsOr (sleep.map (·.duration_minutes)) 0
      sleep_efficiency := jsOrNull (sleep.map (·.efficiency))
      weight := jsOrNullQ (weight.map (·.weight))
      vo2max := vo2max
      spo2_avg := spo2Avg }
  { db with daily_summary := upsert db.daily_summary date row }

/-! ## Credential acquisition (worker.ts lines 289-345) -/

/-- Body of a successful refresh response from the token endpoint. -/
structure RefreshTokens where
  access_token : String
  refresh_token : String
  /-- `expires_in`, seconds. Nonnegative by the OAuth contract. -/
  expires_in : Nat
  deriving DecidableEq

inductive SyncError where
  /-- no stored credential: `Not authenticated. Please connect Fitbit first.` -/
  | NotAuthenticated
  /-- `Token refresh failed. Please re-authenticate.` -/
  | RefreshFailed
  deriving DecidableEq

deriving instance DecidableEq for Except

/-- Result of the token-acquisition step. -/
structure TokenStep where
  outcome : Except SyncError String
  db : DB
  /-- how many times the refresh endpoint was called -/
  refreshCalls : Nat
  deriving DecidableEq

/-- The token-acquisition step of `/api/sync` (worker.ts lines 289-345):
load the stored credential; refresh iff `expiresAt < new Date()`;
on refresh success overwrite the same row (`UPDATE oauth_tokens SET
access_token, refresh_token, expires_at WHERE user_id`), with
`expires_at = Date.now() + expires_in * 1000`. `refresh = none` models a
rejected refresh call (`!refreshResponse.ok`). -/
def getValidAccessToken (db : DB) (now : Int)
    (refresh : Option RefreshTokens) : TokenStep :=
  match db.oauth with
  | none => ⟨.error .NotAuthenticated, db, 0⟩
  | some cred =>
    if cred.expires_at < now then
      match refresh with
      | none => ⟨.error .RefreshFailed, db, 1⟩
      | some nt =>
        let newCred : OAuthTokenRow :=
          { access_token := nt.access_token
            refresh_token := nt.refresh_token
            expires_at := now + (nt.expires_in : Int) * 1000
            scope := cred.scope }
        ⟨.ok nt.access_token, { db with oauth := some newCred }, 1⟩
    else ⟨.ok cred.access_token, db, 0⟩

/-! ## The sync cycle (worker.ts `/api/sync`, lines 285-561) -/

/-- The six fetch results of one cycle; `none` = response not ok. -/
structure FetchResults where
  activity : Option FitbitActivityResponse
  sleep : Option FitbitSleepResponse
  heart : Option FitbitHeartRateResponse
  weight : Option FitbitWeightResponse
  vo2max : Option FitbitVO2maxResponse
  spo2 : Option FitbitSpO2Response
  deriving DecidableEq

structure SyncOutcome where
  result : Except SyncError Unit
  db : DB
  refreshCalls : Nat
  deriving DecidableEq

/-- One sync cycle: acquire a token (aborting on `NotAuthenticated` /
`RefreshFailed`), then run every domain writer on its own fetch result,
then recompute the daily summary for `today`. -/
def syncCycle (db : DB) (now : Int) (refresh : Option RefreshTokens)
    (today : String) (fr : FetchResults) : SyncOutcome :=
  let ts := getValidAccessToken db now refresh
  match ts.outcome with
  | .error e => ⟨.error e, ts.db, ts.refreshCalls⟩
  | .ok _ =>
    let db1 := processActivity ts.db today fr.activity
    let db2 := processSleep db1 today fr.sleep
    let db3 := processHeart db2 today fr.heart
    let db4 := processWeight db3 fr.weight
    let pv := processVo2max db4 fr.vo2max
    let ps := processSpo2 pv.1 fr.spo2
    ⟨.ok (), updateDailySummary ps.1 today pv.2 ps.2, ts.refreshCalls⟩

/-! ## Daily report (worker.ts `postDailyHealthReport`, lines 652-740) -/

/-- Outcomes of the two external collaborators for one report attempt:
`insights = none` models `analyzeHealthData` returning nothing, `postOk`
the boolean result of `postHealthInsightsToSlack`. -/
structure ReportEnv where
  insights : Option String
  postOk : Bool
  deriving DecidableEq

structure ReportOutcome where
  db : DB
  /-- number of calls made to the posting collaborator -/
  posts : Nat
  deriving DecidableEq

/-- `postDailyHealthReport` for target date `yesterday`: no-op when the
`sync_state` guard matches; no-op when no summary row exists; otherwise run
the insight collaborator, post on success, and persist the guard date only
after a successful post. -/
def postDailyHealthReport (db : DB) (yesterday : String)
    (env : ReportEnv) : ReportOutcome :=
  if db.reportDate = some yesterday then ⟨db, 0⟩
  else
    match findRow db.daily_summary yesterday with
    | none => ⟨db, 0⟩
    | some _ =>
      match env.insights with
      | none => ⟨db, 0⟩
      | some _ =>
        if env.postOk then ⟨{ db with reportDate := some yesterday }, 1⟩
        else ⟨db, 1⟩

/-! ## Table lemmas -/

@[simp]
theorem findRow_upsert_self {ρ : Type} (t : Table ρ) (d : String) (r : ρ) :
    findRow (upsert t d r) d = some r := by
  induction t with
  | nil => simp [upsert, findRow]
  | cons p t ih =>
    obtain ⟨dh, rh⟩ := p
    by_cases h : dh = d
    · simp [upsert, findRow, h]
    · simp [upsert, findRow, h, ih]

theorem findRow_upsert_ne {ρ : Type} (t : Table ρ) (d dq : String) (r : ρ)
    (h : dq ≠ d) : findRow (upsert t d r) dq = findRow t dq := by
  induction t with
  | nil => simp [upsert, findRow, Ne.symm h]
  | cons p t ih =>
    obtain ⟨dh, rh⟩ := p
    by_cases h₀ : dh = d
    · subst h₀
      simp [upsert, findRow, Ne.symm h]
    · by_cases h₁ : dh = dq <;> simp [upsert, findRow, h₀, h₁, ih, h]

theorem mem_map_fst_upsert {ρ : Type} (t : Table ρ) (d dq : String) (r : ρ) :
    dq ∈ (upsert t d r).map Prod.fst ↔ dq ∈ t.map Prod.fst ∨ dq = d := by
  induction t with
  | nil => simp [upsert]
  | cons p t ih =>
    obtain ⟨dh, rh⟩ := p
    by_cases h : dh = d <;> simp [upsert, h, ih] <;> tauto

theorem wf_upsert {ρ : Type} (t : Table ρ) (d : String) (r : ρ)
    (h : wfTable t) : wfTable (upsert t d r) := by
  induction t with
  | nil => simp [upsert, wfTable]
  | cons p t ih =>
    obtain ⟨dh, rh⟩ := p
    simp only [wfTable, List.map_cons, List.nodup_cons] at h
    obtain ⟨hmem, hnd⟩ := h
    by_cases hd : dh = d
    · subst hd
      have hrw : upsert ((dh, rh) :: t) dh r = (dh, r) :: t := by
        simp [upsert]
      rw [hrw]
      simp only [wfTable, List.map_cons, List.nodup_cons]
      exact ⟨hmem, hnd⟩
    · have hrec := ih hnd
      simp only [upsert, hd, if_false, wfTable, List.map_cons, List.nodup_cons]
      refine ⟨?_, hrec⟩
      rw [mem_map_fst_upsert]
      push_neg
      exact ⟨hmem, hd⟩

theorem countDate_eq_zero_of_not_mem {ρ : Type} (t : Table ρ) (d : String)
    (h : d ∉ t.map Prod.fst) : countDate t d = 0 := by
  induction t with
  | nil => rfl
  | cons p t ih =>
    obtain ⟨dh, rh⟩ := p
    simp only [List.map_cons, List.mem_cons] at h
    push_neg at h
    simp [countDate, Ne.symm h.1, ih h.2]

theorem countDate_of_wf {ρ : Type} (t : Table ρ) (d : String) (h : wfTable t) :
    countDate t d = if (findRow t d).isSome then 1 else 0 := by
  induction t with
  | nil => simp [countDate, findRow]
  | cons p t ih =>
    obtain ⟨dh, rh⟩ := p
    simp only [wfTable, List.map_cons, List.nodup_cons] at h
    obtain ⟨hmem, hnd⟩ := h
    by_cases hd : dh = d
    · subst hd
      simp [countDate, findRow, countDate_eq_zero_of_not_mem t dh hmem]
    · simp [countDate, findRow, hd, ih hnd]

theorem countDate_upsert_self {ρ : Type} (t : Table ρ) (d : String) (r : ρ)
    (h : wfTable t) : countDate (upsert t d r) d = 1 := by
  rw [countDate_of_wf _ _ (wf_upsert t d r h), findRow_upsert_self]
  rfl

theorem upsert_upsert_self {ρ : Type} (t : Table ρ) (d : String) (r rq : ρ) :
    upsert (upsert t d r) d rq = upsert t d rq := by
  induction t with
  | nil => simp [upsert]
  | cons p t ih =>
    obtain ⟨dh, rh⟩ := p
    by_cases h : dh = d <;> simp [upsert, h, ih]

theorem findRow_weightFold (ws : List FitbitWeightEntry) (t : Table WeightRow)
    (d : String) :
    findRow (weightFold t ws) d =
      (match lastMatch ws d with
       | some e => some (weightRowOf e)
       | none => findRow t d) := by
  induction ws generalizing t with
  | nil => simp [weightFold, lastMatch]
  | cons e tl ih =>
    have hstep : weightFold t (e :: tl) =
        weightFold (upsert t e.date (weightRowOf e)) tl := by
      simp [weightFold]
    rw [hstep, ih]
    cases hlm : lastMatch tl d with
    | some x => simp [lastMatch, hlm]
    | none =>
      simp only [lastMatch, hlm]
      by_cases hd : e.date = d
      · subst hd
        simp [findRow_upsert_self]
      · simp only [hd, if_false]
        exact findRow_upsert_ne t e.date d _ (Ne.symm hd)

theorem wf_weightFold (ws : List FitbitWeightEntry) (t : Table WeightRow)
    (h : wfTable t) : wfTable (weightFold t ws) := by
  induction ws generalizing t with
  | nil => exact h
  | cons e tl ih =>
    have hstep : weightFold t (e :: tl) =
        weightFold (upsert t e.date (weightRowOf e)) tl := by
      simp [weightFold]
    rw [hstep]
    exact ih _ (wf_upsert _ _ _ h)

theorem lastMatch_isSome_of_mem (ws : List FitbitWeightEntry)
    (e : FitbitWeightEntry) (h : e ∈ ws) : (lastMatch ws e.date).isSome := by
  induction ws with
  | nil => cases h
  | cons x tl ih =>
    cases hlm : lastMatch tl e.date with
    | some y => simp [lastMatch, hlm]
    | none =>
      simp only [lastMatch, hlm]
      rcases List.mem_cons.mp h with he | htl
      · subst he
        simp
      · have hs := ih htl
        rw [hlm] at hs
        simp at hs

/-! ## JS-coercion lemmas -/

theorem jsOr_some_zero (v : Int) : jsOr (some v) 0 = v := by
  by_cases h : v = 0 <;> simp [jsOr, h]

theorem jsOrNull_ne_some_zero (x : Option Int) : jsOrNull x ≠ some 0 := by
  cases x with
  | none => simp [jsOrNull]
  | some v => by_cases h : v = 0 <;> simp [jsOrNull, h]

theorem jsOrNullQ_ne_some_zero (x : Option ℚ) : jsOrNullQ x ≠ some 0 := by
  cases x with
  | none => simp [jsOrNullQ]
  | some v => by_cases h : v = 0 <;> simp [jsOrNullQ, h]

/-! ## Frame lemmas: each step touches only its own table -/

@[simp]
theorem processActivity_sleep_data (db : DB) (today : String)
    (resp : Option FitbitActivityResponse) :
    (processActivity db today resp).sleep_data = db.sleep_data := by
  cases resp <;> rfl

@[simp]
theorem processActivity_heart_rate (db : DB) (today : String)
    (resp : Option FitbitActivityResponse) :
    (processActivity db today resp).heart_rate = db.heart_rate := by
  cases resp <;> rfl

@[simp]
theorem processActivity_weight_data (db : DB) (today : String)
    (resp : Option FitbitActivityResponse) :
    (processActivity db today resp).weight_data = db.weight_data := by
  cases resp <;> rfl

@[simp]
theorem processActivity_daily_summary (db : DB) (today : String)
    (resp : Option FitbitActivityResponse) :
    (processActivity db today resp).daily_summary = db.daily_summary := by
  cases resp <;> rfl

theorem processActivity_written (db : DB) (today : String)
    (r : FitbitActivityResponse) :
    (processActivity db today (some r)).daily_activity =
      upsert db.daily_activity today (activityRowOf r) := rfl

@[simp]
theorem processSleep_daily_activity (db : DB) (today : String)
    (resp : Option FitbitSleepResponse) :
    (processSleep db today resp).daily_activity = db.daily_activity := by
  cases resp with
  | none => rfl
  | some r =>
    obtain ⟨sl, sm⟩ := r
    cases sl <;> rfl

@[simp]
theorem processSleep_heart_rate (db : DB) (today : String)
    (resp : Option FitbitSleepResponse) :
    (processSleep db today resp).heart_rate = db.heart_rate := by
  cases resp with
  | none => rfl
  | some r =>
    obtain ⟨sl, sm⟩ := r
    cases sl <;> rfl

@[simp]
theorem processSleep_weight_data (db : DB) (today : String)
    (resp : Option FitbitSleepResponse) :
    (processSleep db today resp).weight_data = db.weight_data := by
  cases resp with
  | none => rfl
  | some r =>
    obtain ⟨sl, sm⟩ := r
    cases sl <;> rfl

@[simp]
theorem processSleep_daily_summary (db : DB) (today : String)
    (resp : Option FitbitSleepResponse) :
    (processSleep db today resp).daily_summary = db.daily_summary := by
  cases resp with
  | none => rfl
  | some r =>
    obtain ⟨sl, sm⟩ := r
    cases sl <;> rfl

theorem processSleep_written (db : DB) (today : String) (r : FitbitSleepResponse)
    (e : FitbitSleepEntry) (rest : List FitbitSleepEntry) (h : r.sleep = e :: rest) :
    (processSleep db today (some r)).sleep_data =
      upsert db.sleep_data today (sleepRowOf e (r.summary.map (·.stages)) r) := by
  obtain ⟨sl, sm⟩ := r
  simp only at h
  subst h
  rfl

theorem processHeart_none (db : DB) (today : String) :
    processHeart db today none = db := rfl

theorem processHeart_written (db : DB) (today : String)
    (r : FitbitHeartRateResponse) (hd : FitbitHeartRateDay)
    (rest : List FitbitHeartRateDay) (h : r.activitiesHeart = hd :: rest) :
    (processHeart db today (some r)).heart_rate =
      upsert db.heart_rate today (heartRowOf hd.value r) := by
  obtain ⟨ah⟩ := r
  simp only at h
  subst h
  rfl

@[simp]
theorem processHeart_daily_activity (db : DB) (today : String)
    (resp : Option FitbitHeartRateResponse) :
    (processHeart db today resp).daily_activity = db.daily_activity := by
  cases resp with
  | none => rfl
  | some r =>
    obtain ⟨ah⟩ := r
    cases ah <;> rfl

@[simp]
theorem processHeart_sleep_data (db : DB) (today : String)
    (resp : Option FitbitHeartRateResponse) :
    (processHeart db today resp).sleep_data = db.sleep_data := by
  cases resp with
  | none => rfl
  | some r =>
    obtain ⟨ah⟩ := r
    cases ah <;> rfl

@[simp]
theorem processHeart_weight_data (db : DB) (today : String)
    (resp : Option FitbitHeartRateResponse) :
    (processHeart db today resp).weight_data = db.weight_data := by
  cases resp with
  | none => rfl
  | some r =>
    obtain ⟨ah⟩ := r
    cases ah <;> rfl

@[simp]
theorem processHeart_daily_summary (db : DB) (today : String)
    (resp : Option FitbitHeartRateResponse) :
    (processHeart db today resp).daily_summary = db.daily_summary := by
  cases resp with
  | none => rfl
  | some r =>
    obtain ⟨ah⟩ := r
    cases ah <;> rfl

@[simp]
theorem processWeight_daily_activity (db : DB)
    (resp : Option FitbitWeightResponse) :
    (processWeight db resp).daily_activity = db.daily_activity := by
  cases resp <;> rfl

@[simp]
theorem processWeight_sleep_data (db : DB) (resp : Option FitbitWeightResponse) :
    (processWeight db resp).sleep_data = db.sleep_data := by
  cases resp <;> rfl

@[simp]
theorem processWeight_heart_rate (db : DB) (resp : Option FitbitWeightResponse) :
    (processWeight db resp).heart_rate = db.heart_rate := by
  cases resp <;> rfl

@[simp]
theorem processWeight_daily_summary (db : DB)
    (resp : Option FitbitWeightResponse) :
    (processWeight db resp).daily_summary = db.daily_summary := by
  cases resp <;> rfl

theorem processWeight_written (db : DB) (r : FitbitWeightResponse) :
    (processWeight db (some r)).weight_data =
      weightFold db.weight_data r.weight := rfl

@[simp]
theorem processVo2max_daily_activity (db : DB)
    (resp : Option FitbitVO2maxResponse) :
    (processVo2max db resp).1.daily_activity = db.daily_activity := by
  cases resp with
  | none => rfl
  | some r =>
    obtain ⟨cs⟩ := r
    cases cs <;> rfl

@[simp]
theorem processVo2max_sleep_data (db : DB) (resp : Option FitbitVO2maxResponse) :
    (processVo2max db resp).1.sleep_data = db.sleep_data := by
  cases resp with
  | none => rfl
  | some r =>
    obtain ⟨cs⟩ := r
    cases cs <;> rfl

@[simp]
theorem processVo2max_heart_rate (db : DB) (resp : Option FitbitVO2maxResponse) :
    (processVo2max db resp).1.heart_rate = db.heart_rate := by
  cases resp with
  | none => rfl
  | some r =>
    obtain ⟨cs⟩ := r
    cases cs <;> rfl

@[simp]
theorem processVo2max_weight_data (db : DB) (resp : Option FitbitVO2maxResponse) :
    (processVo2max db resp).1.weight_data = db.weight_data := by
  cases resp with
  | none => rfl
  | some r =>
    obtain ⟨cs⟩ := r
    cases cs <;> rfl

@[simp]
theorem processVo2max_daily_summary (db : DB)
    (resp : Option FitbitVO2maxResponse) :
    (processVo2max db resp).1.daily_summary = db.daily_summary := by
  cases resp with
  | none => rfl
  | some r =>
    obtain ⟨cs⟩ := r
    cases cs <;> rfl

@[simp]
theorem processSpo2_daily_activity (db : DB) (resp : Option FitbitSpO2Response) :
    (processSpo2 db resp).1.daily_activity = db.daily_activity := by
  cases resp with
  | none => rfl
  | some r =>
    obtain ⟨dt, v⟩ := r
    cases v <;> rfl

@[simp]
theorem processSpo2_sleep_data (db : DB) (resp : Option FitbitSpO2Response) :
    (processSpo2 db resp).1.sleep_data = db.sleep_data := by
  cases resp with
  | none => rfl
  | some r =>
    obtain ⟨dt, v⟩ := r
    cases v <;> rfl

@[simp]
theorem processSpo2_heart_rate (db : DB) (resp : Option FitbitSpO2Response) :
    (processSpo2 db resp).1.heart_rate = db.heart_rate := by
  cases resp with
  | none => rfl
  | some r =>
    obtain ⟨dt, v⟩ := r
    cases v <;> rfl

@[simp]
theorem processSpo2_weight_data (db : DB) (resp : Option FitbitSpO2Response) :
    (processSpo2 db resp).1.weight_data = db.weight_data := by
  cases resp with
  | none => rfl
  | some r =>
    obtain ⟨dt, v⟩ := r
    cases v <;> rfl

@[simp]
theorem processSpo2_daily_summary (db : DB) (resp : Option FitbitSpO2Response) :
    (processSpo2 db resp).1.daily_summary = db.daily_summary := by
  cases resp with
  | none => rfl
  | some r =>
    obtain ⟨dt, v⟩ := r
    cases v <;> rfl

@[simp]
theorem updateDailySummary_daily_activity (db : DB) (date : String)
    (vo2 : Option String) (spo2 : Option ℚ) :
    (updateDailySummary db date vo2 spo2).daily_activity = db.daily_activity := rfl

@[simp]
theorem updateDailySummary_sleep_data (db : DB) (date : String)
    (vo2 : Option String) (spo2 : Option ℚ) :
    (updateDailySummary db date vo2 spo2).sleep_data = db.sleep_data := rfl

@[simp]
theorem updateDailySummary_heart_rate (db : DB) (date : String)
    (vo2 : Option String) (spo2 : Option ℚ) :
    (updateDailySummary db date vo2 spo2).heart_rate = db.heart_rate := rfl

@[simp]
theorem updateDailySummary_weight_data (db : DB) (date : String)
    (vo2 : Option String) (spo2 : Option ℚ) :
    (updateDailySummary db date vo2 spo2).weight_data = db.weight_data := rfl

@[simp]
theorem getValidAccessToken_heart_rate (db : DB) (now : Int)
    (refresh : Option RefreshTokens) :
    (getValidAccessToken db now refresh).db.heart_rate = db.heart_rate := by
  unfold getValidAccessToken
  cases db.oauth with
  | none => rfl
  | some cred =>
    dsimp only
    split
    · cases refresh <;> rfl
    · rfl

/-! ## Claims -/

/-- C5: for every store state and date, the `daily_summary` row written by
`updateDailySummary` has `active_minutes` equal to
`fairly_active_minutes + very_active_minutes` of the stored activity row for
that date, and `0` when no activity row exists. -/
theorem claim_C5_active_minutes_sum (db : DB) (date : String)
    (vo2 : Option String) (spo2 : Option ℚ) :
    ∃ srow,
      findRow (updateDailySummary db date vo2 spo2).daily_summary date = some srow ∧
      srow.active_minutes =
        (match findRow db.daily_activity date with
         | some a => a.fairly_active_minutes + a.very_active_minutes
         | none => 0) := by
  simp only [updateDailySummary]
  refine ⟨_, findRow_upsert_self _ _ _, ?_⟩
  cases hfa : findRow db.daily_activity date with
  | none => simp [jsOr]
  | some a => simp [jsOr_some_zero]

/-- C9 (implicit): in the summary row written by `updateDailySummary` the
nullable fields `resting_heart_rate`, `sleep_efficiency` and `weight` are
never `some 0`; a stored `0` in the source row is coerced to `null` by the
`|| null` defaulting. -/
theorem claim_C9_zero_becomes_null (db : DB) (date : String)
    (vo2 : Option String) (spo2 : Option ℚ) :
    ∃ srow,
      findRow (updateDailySummary db date vo2 spo2).daily_summary date = some srow ∧
      srow.resting_heart_rate ≠ some 0 ∧
      srow.sleep_efficiency ≠ some 0 ∧
      srow.weight ≠ some 0 ∧
      (∀ h, findRow db.heart_rate date = some h →
        h.resting_heart_rate = some 0 → srow.resting_heart_rate = none) ∧
      (∀ s, findRow db.sleep_data date = some s →
        s.efficiency = 0 → srow.sleep_efficiency = none) ∧
      (∀ w, findRow db.weight_data date = some w →
        w.weight = 0 → srow.weight = none) := by
  simp only [updateDailySummary]
  refine ⟨_, findRow_upsert_self _ _ _, jsOrNull_ne_some_zero _,
    jsOrNull_ne_some_zero _, jsOrNullQ_ne_some_zero _, ?_, ?_, ?_⟩
  · intro h hh hz
    simp [hh, hz, jsOrNull]
  · intro s hsr hz
    simp [hsr, hz, jsOrNull]
  · intro w hwr hz
    simp [hwr, hz, jsOrNullQ]

/-- C9 witness: a stored heart-rate row whose `resting_heart_rate` is `0`
yields a summary row with `resting_heart_rate = null`. -/
theorem claim_C9_witness :
    ∃ srow,
      findRow (updateDailySummary
        { DB.empty with
            heart_rate := [("2024-01-01", ⟨some 0, 0, 0, 0, 0, ⟨[]⟩⟩)] }
        "2024-01-01" none none).daily_summary "2024-01-01" = some srow ∧
      srow.resting_heart_rate = none := by
  obtain ⟨srow, h1, h2, h3, h4, h5, h6, h7⟩ :=
    claim_C9_zero_becomes_null
      { DB.empty with
          heart_rate := [("2024-01-01", ⟨some 0, 0, 0, 0, 0, ⟨[]⟩⟩)] }
      "2024-01-01" none none
  exact ⟨srow, h1, h5 ⟨some 0, 0, 0, 0, 0, ⟨[]⟩⟩ (by decide) rfl⟩

/-- C2 counterexample: the claim asserts the refresh flow runs whenever
`now ≥ expires_at`, but at the boundary `now = expires_at` the code's test
`expiresAt < new Date()` is false, so no refresh call is made and the stored
token is returned unrefreshed. -/
theorem claim_C2_counterexample_expiry_boundary :
    (1000 : Int) ≥ 1000 ∧
    (getValidAccessToken
        { DB.empty with oauth := some ⟨"tok", "ref", 1000, "sc"⟩ }
        1000 (some ⟨"tok2", "ref2", 3600⟩)).refreshCalls = 0 ∧
    (getValidAccessToken
        { DB.empty with oauth := some ⟨"tok", "ref", 1000, "sc"⟩ }
        1000 (some ⟨"tok2", "ref2", 3600⟩)).outcome = .ok "tok" := by
  refine ⟨le_refl _, ?_, ?_⟩ <;> rfl

/-- C2 (amended): for every stored credential whose expiry is strictly in
the past (`expires_at < now`), the token step calls the refresh endpoint
exactly once before returning a token; on refresh success it overwrites the
same credential row with the new access/refresh pair, the stored expiry
equals `now + expires_in` computed at the exchange, and the new expiry is
strictly later than the old one. -/
theorem claim_C2_refresh_once_strictly_expired (db : DB) (cred : OAuthTokenRow)
    (now : Int) (nt : RefreshTokens)
    (hc : db.oauth = some cred) (hex : cred.expires_at < now) :
    (getValidAccessToken db now (some nt)).refreshCalls = 1 ∧
    (getValidAccessToken db now (some nt)).outcome = .ok nt.access_token ∧
    (getValidAccessToken db now (some nt)).db.oauth =
      some ⟨nt.access_token, nt.refresh_token,
            now + (nt.expires_in : Int) * 1000, cred.scope⟩ ∧
    cred.expires_at < now + (nt.expires_in : Int) * 1000 := by
  refine ⟨?_, ?_, ?_, by omega⟩ <;> simp [getValidAccessToken, hc, hex]

/-- C2 witness: a credential expired at 1000 refreshed at 2000. -/
theorem claim_C2_witness :
    (getValidAccessToken
        { DB.empty with oauth := some ⟨"tok", "ref", 1000, "sc"⟩ }
        2000 (some ⟨"tok2", "ref2", 3600⟩)).refreshCalls = 1 ∧
    (getValidAccessToken
        { DB.empty with oauth := some ⟨"tok", "ref", 1000, "sc"⟩ }
        2000 (some ⟨"tok2", "ref2", 3600⟩)).outcome = .ok "tok2" :=
  ⟨(claim_C2_refresh_once_strictly_expired _ _ _ _ rfl (by norm_num)).1,
   (claim_C2_refresh_once_strictly_expired _ _ _ _ rfl (by norm_num)).2.1⟩

/-- C8: a sync cycle reports `NotAuthenticated` exactly when no credential
row exists, reports `RefreshFailed` exactly when the stored credential is
expired (`expires_at < now`, the code's test) and the refresh call is
rejected, and whenever it reports any failure the store is unchanged (no
domain writes); `SyncError` has no other constructor, so these are the only
overall-failure conditions. -/
theorem claim_C8_failure_taxonomy (db : DB) (now : Int)
    (refresh : Option RefreshTokens) (today : String) (fr : FetchResults) :
    ((syncCycle db now refresh today fr).result = .error .NotAuthenticated ↔
      db.oauth = none) ∧
    ((syncCycle db now refresh today fr).result = .error .RefreshFailed ↔
      (∃ cred, db.oauth = some cred ∧ cred.expires_at < now ∧ refresh = none)) ∧
    (∀ e, (syncCycle db now refresh today fr).result = .error e →
      (syncCycle db now refresh today fr).db = db) := by
  cases hdb : db.oauth with
  | none =>
    refine ⟨?_, ?_, ?_⟩
    · simp [syncCycle, getValidAccessToken, hdb]
    · simp [syncCycle, getValidAccessToken, hdb]
    · intro e he
      simp [syncCycle, getValidAccessToken, hdb]
  | some cred =>
    by_cases hex : cred.expires_at < now
    · cases refresh with
      | none =>
        refine ⟨?_, ?_, ?_⟩
        · simp [syncCycle, getValidAccessToken, hdb, hex]
        · simp [syncCycle, getValidAccessToken, hdb, hex]
        · intro e he
          simp [syncCycle, getValidAccessToken, hdb, hex]
      | some nt =>
        refine ⟨?_, ?_, ?_⟩
        · simp [syncCycle, getValidAccessToken, hdb, hex]
        · simp [syncCycle, getValidAccessToken, hdb, hex]
        · intro e he
          simp [syncCycle, getValidAccessToken, hdb, hex] at he
    · refine ⟨?_, ?_, ?_⟩
      · simp [syncCycle, getValidAccessToken, hdb, hex]
      · simp [syncCycle, getValidAccessToken, hdb, hex]
      · intro e he
        simp [syncCycle, getValidAccessToken, hdb, hex] at he

/-- C8 witness: with no stored credential the cycle fails with
`NotAuthenticated`. -/
theorem claim_C8_witness :
    (syncCycle DB.empty 0 none "2024-01-01"
        ⟨none, none, none, none, none, none⟩).result =
      .error .NotAuthenticated :=
  (claim_C8_failure_taxonomy DB.empty 0 none "2024-01-01"
      ⟨none, none, none, none, none, none⟩).1.mpr rfl

/-- C4: `postDailyHealthReport` is an at-most-once-per-day guard: a matching
stored report date makes it a no-op; a failed insight generation or a failed
post leaves the store untouched; after a successful post the guard date is
set and a second call posts nothing and changes nothing. -/
theorem claim_C4_report_at_most_once (db : DB) (d : String)
    (env envB : ReportEnv) :
    (db.reportDate = some d → postDailyHealthReport db d env = ⟨db, 0⟩) ∧
    ((env.insights = none ∨ env.postOk = false) →
      (postDailyHealthReport db d env).db = db) ∧
    (∀ i, env.insights = some i → env.postOk = true →
      (findRow db.daily_summary d).isSome → db.reportDate ≠ some d →
      (postDailyHealthReport db d env).posts = 1 ∧
      (postDailyHealthReport db d env).db.reportDate = some d ∧
      postDailyHealthReport (postDailyHealthReport db d env).db d envB =
        ⟨(postDailyHealthReport db d env).db, 0⟩) := by
  refine ⟨?_, ?_, ?_⟩
  · intro hg
    simp [postDailyHealthReport, hg]
  · intro hfail
    by_cases hg : db.reportDate = some d
    · simp [postDailyHealthReport, hg]
    · cases hfr : findRow db.daily_summary d with
      | none => simp [postDailyHealthReport, hg, hfr]
      | some srow =>
        cases hin : env.insights with
        | none => simp [postDailyHealthReport, hg, hfr, hin]
        | some i =>
          rcases hfail with hfail | hfail
          · rw [hin] at hfail
            cases hfail
          · simp [postDailyHealthReport, hg, hfr, hin, hfail]
  · intro i hin hok hsum hg
    obtain ⟨srow, hfr⟩ := Option.isSome_iff_exists.mp hsum
    have hrun : postDailyHealthReport db d env =
        ⟨{ db with reportDate := some d }, 1⟩ := by
      simp [postDailyHealthReport, hg, hfr, hin, hok]
    refine ⟨by rw [hrun], by rw [hrun], ?_⟩
    rw [hrun]
    simp [postDailyHealthReport]

/-- C4 witness: the spec's scenario, a second call after a successful post
for 2024-01-14 is a no-op. -/
theorem claim_C4_witness :
    postDailyHealthReport
      (postDailyHealthReport
        { DB.empty with daily_summary :=
            [("2024-01-14", ⟨0, 0, 0, 0, none, 0, none, none, none, none⟩)] }
        "2024-01-14" ⟨some "insight", true⟩).db
      "2024-01-14" ⟨some "insight", true⟩ =
    ⟨(postDailyHealthReport
        { DB.empty with daily_summary :=
            [("2024-01-14", ⟨0, 0, 0, 0, none, 0, none, none, none, none⟩)] }
        "2024-01-14" ⟨some "insight", true⟩).db, 0⟩ :=
  ((claim_C4_report_at_most_once
      { DB.empty with daily_summary :=
          [("2024-01-14", ⟨0, 0, 0, 0, none, 0, none, none, none, none⟩)] }
      "2024-01-14" ⟨some "insight", true⟩ ⟨some "insight", true⟩).2.2
    "insight" rfl rfl (by decide) (by decide)).2.2

/-- C7: when a weight window contains several entries for one date, the
stored row for that date holds the field values of the last such entry in
the response array, and exactly one row exists for that date. -/
theorem claim_C7_weight_last_write_wins (db : DB) (resp : FitbitWeightResponse)
    (d : String) (e : FitbitWeightEntry)
    (hwf : wfTable db.weight_data)
    (hlast : lastMatch resp.weight d = some e) :
    findRow (processWeight db (some resp)).weight_data d =
      some (weightRowOf e) ∧
    countDate (processWeight db (some resp)).weight_data d = 1 := by
  rw [processWeight_written]
  constructor
  · rw [findRow_weightFold, hlast]
  · rw [countDate_of_wf _ _ (wf_weightFold resp.weight db.weight_data hwf),
      findRow_weightFold, hlast]
    rfl

/-- C7 witness: two same-date entries in one window, the later one wins. -/
theorem claim_C7_witness :
    findRow (processWeight DB.empty
        (some ⟨[⟨"2024-01-05", 70, 22, 18⟩,
                ⟨"2024-01-05", 71, 23, 19⟩]⟩)).weight_data "2024-01-05" =
      some (weightRowOf ⟨"2024-01-05", 71, 23, 19⟩) ∧
    countDate (processWeight DB.empty
        (some ⟨[⟨"2024-01-05", 70, 22, 18⟩,
                ⟨"2024-01-05", 71, 23, 19⟩]⟩)).weight_data "2024-01-05" = 1 :=
  claim_C7_weight_last_write_wins DB.empty
    ⟨[⟨"2024-01-05", 70, 22, 18⟩, ⟨"2024-01-05", 71, 23, 19⟩]⟩
    "2024-01-05" ⟨"2024-01-05", 71, 23, 19⟩ (by decide) (by decide)

/-- C3: every domain writer is an idempotent upsert: running it a second
time with the identical payload leaves the affected table unchanged (for
weight, row-for-row extensionally), and on a well-formed store the written
date holds exactly one row. -/
theorem claim_C3_writers_idempotent
    (db : DB) (today : String)
    (ra : FitbitActivityResponse) (rs : FitbitSleepResponse)
    (rh : FitbitHeartRateResponse) (rw : FitbitWeightResponse)
    (rv : FitbitVO2maxResponse) (ro : FitbitSpO2Response)
    (hwa : wfTable db.daily_activity) (hws : wfTable db.sleep_data)
    (hwh : wfTable db.heart_rate) (hww : wfTable db.weight_data)
    (hwv : wfTable db.vo2max_data) (hwo : wfTable db.spo2_data) :
    (processActivity (processActivity db today (some ra)) today (some ra) =
        processActivity db today (some ra) ∧
      countDate (processActivity db today (some ra)).daily_activity today = 1) ∧
    (processSleep (processSleep db today (some rs)) today (some rs) =
        processSleep db today (some rs) ∧
      (rs.sleep ≠ [] →
        countDate (processSleep db today (some rs)).sleep_data today = 1)) ∧
    (processHeart (processHeart db today (some rh)) today (some rh) =
        processHeart db today (some rh) ∧
      (rh.activitiesHeart ≠ [] →
        countDate (processHeart db today (some rh)).heart_rate today = 1)) ∧
    ((∀ dq, findRow (processWeight (processWeight db (some rw))
          (some rw)).weight_data dq =
        findRow (processWeight db (some rw)).weight_data dq) ∧
      (∀ e ∈ rw.weight,
        countDate (processWeight db (some rw)).weight_data e.date = 1)) ∧
    ((processVo2max (processVo2max db (some rv)).1 (some rv)).1 =
        (processVo2max db (some rv)).1 ∧
      (∀ c rest, rv.cardioScore = c :: rest →
        countDate (processVo2max db (some rv)).1.vo2max_data c.dateTime = 1)) ∧
    ((processSpo2 (processSpo2 db (some ro)).1 (some ro)).1 =
        (processSpo2 db (some ro)).1 ∧
      (ro.value.isSome →
        countDate (processSpo2 db (some ro)).1.spo2_data ro.dateTime = 1)) := by
  refine ⟨⟨?_, ?_⟩, ⟨?_, ?_⟩, ⟨?_, ?_⟩, ⟨?_, ?_⟩, ⟨?_, ?_⟩, ⟨?_, ?_⟩⟩
  · simp [processActivity, upsert_upsert_self]
  · simp only [processActivity]
    exact countDate_upsert_self _ _ _ hwa
  · obtain ⟨sl, sm⟩ := rs
    cases sl with
    | nil => rfl
    | cons e tl => simp [processSleep, upsert_upsert_self]
  · obtain ⟨sl, sm⟩ := rs
    cases sl with
    | nil =>
      intro hne
      exact absurd rfl hne
    | cons e tl =>
      intro _
      simp only [processSleep]
      exact countDate_upsert_self _ _ _ hws
  · obtain ⟨ah⟩ := rh
    cases ah with
    | nil => rfl
    | cons hd tl => simp [processHeart, upsert_upsert_self]
  · obtain ⟨ah⟩ := rh
    cases ah with
    | nil =>
      intro hne
      exact absurd rfl hne
    | cons hd tl =>
      intro _
      simp only [processHeart]
      exact countDate_upsert_self _ _ _ hwh
  · intro dq
    cases hlm : lastMatch rw.weight dq <;>
      simp [processWeight, findRow_weightFold, hlm]
  · intro e he
    rw [processWeight_written,
      countDate_of_wf _ _ (wf_weightFold rw.weight db.weight_data hww),
      findRow_weightFold]
    have hs := lastMatch_isSome_of_mem rw.weight e he
    cases hlm : lastMatch rw.weight e.date with
    | none =>
      rw [hlm] at hs
      simp at hs
    | some x => simp [hlm]
  · obtain ⟨cs⟩ := rv
    cases cs with
    | nil => rfl
    | cons c tl => simp [processVo2max, upsert_upsert_self]
  · obtain ⟨cs⟩ := rv
    cases cs with
    | nil =>
      intro c rest hcs
      cases hcs
    | cons c tl =>
      intro c2 rest hcs
      injection hcs with h1 h2
      subst h1
      simp only [processVo2max]
      exact countDate_upsert_self _ _ _ hwv
  · obtain ⟨dt, v⟩ := ro
    cases v with
    | none => rfl
    | some vv => simp [processSpo2, upsert_upsert_self]
  · obtain ⟨dt, v⟩ := ro
    cases v with
    | none =>
      intro hv
      simp at hv
    | some vv =>
      intro _
      simp only [processSpo2]
      exact countDate_upsert_self _ _ _ hwo

/-- C3 witness: the activity writer on an empty store leaves exactly one
row for the target date. -/
theorem claim_C3_witness :
    countDate (processActivity DB.empty "2024-01-15"
        (some ⟨some ⟨8000, 2200, [⟨"total", 26/5⟩], 0, 0, 0, 15, 20⟩⟩)
      ).daily_activity "2024-01-15" = 1 :=
  (claim_C3_writers_idempotent DB.empty "2024-01-15"
    ⟨some ⟨8000, 2200, [⟨"total", 26/5⟩], 0, 0, 0, 15, 20⟩⟩
    ⟨[], none⟩ ⟨[]⟩ ⟨[]⟩ ⟨[]⟩ ⟨"2024-01-15", none⟩
    (by decide) (by decide) (by decide) (by decide) (by decide)
    (by decide)).1.2

/-- C1: in a sync cycle whose token acquisition succeeds, where the
heart-rate fetch failed but activity, sleep and weight succeeded (sleep with
at least one session, and no prior heart row for the date), the cycle still
succeeds, writes the activity and sleep rows, writes a weight row for every
fetched entry, leaves the heart-rate table untouched, and still upserts a
daily-summary row whose resting heart rate is null. -/
theorem claim_C1_heart_failure_isolated
    (db : DB) (now : Int) (refresh : Option RefreshTokens) (today : String)
    (fr : FetchResults) (tok : String)
    (ra : FitbitActivityResponse) (rs : FitbitSleepResponse)
    (e : FitbitSleepEntry) (rest : List FitbitSleepEntry)
    (rw : FitbitWeightResponse)
    (htok : (getValidAccessToken db now refresh).outcome = .ok tok)
    (ha : fr.activity = some ra) (hs : fr.sleep = some rs)
    (hh : fr.heart = none) (hw : fr.weight = some rw)
    (hse : rs.sleep = e :: rest)
    (hprior : findRow db.heart_rate today = none) :
    (syncCycle db now refresh today fr).result = .ok () ∧
    findRow (syncCycle db now refresh today fr).db.daily_activity today =
      some (activityRowOf ra) ∧
    findRow (syncCycle db now refresh today fr).db.sleep_data today =
      some (sleepRowOf e (rs.summary.map (·.stages)) rs) ∧
    (syncCycle db now refresh today fr).db.heart_rate = db.heart_rate ∧
    (∀ w ∈ rw.weight,
      (findRow (syncCycle db now refresh today fr).db.weight_data
        w.date).isSome) ∧
    (∃ srow,
      findRow (syncCycle db now refresh today fr).db.daily_summary today =
        some srow ∧
      srow.resting_heart_rate = none) := by
  obtain ⟨fa, fs, fh, fw, fv, fp⟩ := fr
  dsimp only at ha hs hh hw
  subst ha
  subst hs
  subst hh
  subst hw
  obtain ⟨sl, sm⟩ := rs
  dsimp only at hse
  subst hse
  refine ⟨?_, ?_, ?_, ?_, ?_, ?_⟩
  · simp [syncCycle, htok]
  · simp [syncCycle, htok, processHeart_none, processActivity_written]
  · simp [syncCycle, htok, processHeart_none, processSleep]
  · simp [syncCycle, htok, processHeart_none]
  · intro w hwmem
    simp only [syncCycle, htok]
    simp [processHeart_none, processWeight_written, findRow_weightFold]
    have hsm := lastMatch_isSome_of_mem rw.weight w hwmem
    cases hlm : lastMatch rw.weight w.date with
    | none =>
      rw [hlm] at hsm
      simp at hsm
    | some x => simp [hlm]
  · simp only [syncCycle, htok]
    simp only [updateDailySummary]
    refine ⟨_, findRow_upsert_self _ _ _, ?_⟩
    simp [processHeart_none, hprior, jsOrNull]

/-- C1 witness: a concrete cycle with a failed heart fetch succeeds. -/
theorem claim_C1_witness :
    (syncCycle { DB.empty with oauth := some ⟨"tok", "ref", 999999, "sc"⟩ }
        0 none "2024-01-15"
        ⟨some ⟨some ⟨8000, 2200, [⟨"total", 26/5⟩], 10, 600, 200, 15, 20⟩⟩,
         some ⟨[⟨"22:00", "06:00", 28800000, 92⟩], some ⟨⟨60, 200, 90, 30⟩⟩⟩,
         none,
         some ⟨[⟨"2024-01-15", 70, 22, 18⟩]⟩,
         none, none⟩).result = .ok () :=
  (claim_C1_heart_failure_isolated
    { DB.empty with oauth := some ⟨"tok", "ref", 999999, "sc"⟩ }
    0 none "2024-01-15"
    ⟨some ⟨some ⟨8000, 2200, [⟨"total", 26/5⟩], 10, 600, 200, 15, 20⟩⟩,
     some ⟨[⟨"22:00", "06:00", 28800000, 92⟩], some ⟨⟨60, 200, 90, 30⟩⟩⟩,
     none,
     some ⟨[⟨"2024-01-15", 70, 22, 18⟩]⟩,
     none, none⟩
    "tok"
    ⟨some ⟨8000, 2200, [⟨"total", 26/5⟩], 10, 600, 200, 15, 20⟩⟩
    ⟨[⟨"22:00", "06:00", 28800000, 92⟩], some ⟨⟨60, 200, 90, 30⟩⟩⟩
    ⟨"22:00", "06:00", 28800000, 92⟩ []
    ⟨[⟨"2024-01-15", 70, 22, 18⟩]⟩
    (by decide) rfl rfl rfl rfl rfl rfl).1

/-- C6: the spec's scenario: a sync of 2024-01-15 where only the activity
fetch succeeds, on a store with no prior rows, succeeds and writes exactly
the claimed summary row (missing domains as zero/null). -/
theorem claim_C6_activity_only_scenario :
    (syncCycle { DB.empty with oauth := some ⟨"tok", "ref", 999999, "sc"⟩ }
        0 none "2024-01-15"
        ⟨some ⟨some ⟨8000, 2200, [⟨"total", 26/5⟩], 0, 0, 0, 15, 20⟩⟩,
         none, none, none, none, none⟩).result = .ok () ∧
    findRow (syncCycle { DB.empty with oauth := some ⟨"tok", "ref", 999999, "sc"⟩ }
        0 none "2024-01-15"
        ⟨some ⟨some ⟨8000, 2200, [⟨"total", 26/5⟩], 0, 0, 0, 15, 20⟩⟩,
         none, none, none, none, none⟩).db.daily_summary "2024-01-15" =
      some ⟨8000, 2200, 26/5, 35, none, 0, none, none, none, none⟩ := by
  constructor
  · decide
  · norm_num [syncCycle, getValidAccessToken, DB.empty, processActivity,
      processSleep, processHeart, processWeight, processVo2max, processSpo2,
      updateDailySummary, activityRowOf, jsOr, jsOrQ, jsOrNull, jsOrNullQ,
      findRow, upsert, weightFold, List.find?]

/-- C10 (implicit): the VO2max and SpO2 writers key their rows by the date
string inside the upstream payload, not by the cycle's target date, while
the same values flow into the summary row keyed by the target date: here
the vo2max row lands on 2024-01-10 and the spo2 row on 2024-01-09, yet the
2024-01-15 summary carries their values. -/
theorem claim_C10_rows_keyed_by_payload_dates :
    findRow (syncCycle { DB.empty with oauth := some ⟨"tok", "ref", 999999, "sc"⟩ }
        0 none "2024-01-15"
        ⟨none, none, none, none,
         some ⟨[⟨"2024-01-10", ⟨"45"⟩⟩]⟩,
         some ⟨"2024-01-09", some ⟨96, 90, 99⟩⟩⟩).db.vo2max_data "2024-01-10" =
      some ⟨"45", ⟨[⟨"2024-01-10", ⟨"45"⟩⟩]⟩⟩ ∧
    findRow (syncCycle { DB.empty with oauth := some ⟨"tok", "ref", 999999, "sc"⟩ }
        0 none "2024-01-15"
        ⟨none, none, none, none,
         some ⟨[⟨"2024-01-10", ⟨"45"⟩⟩]⟩,
         some ⟨"2024-01-09", some ⟨96, 90, 99⟩⟩⟩).db.vo2max_data "2024-01-15" =
      none ∧
    findRow (syncCycle { DB.empty with oauth := some ⟨"tok", "ref", 999999, "sc"⟩ }
        0 none "2024-01-15"
        ⟨none, none, none, none,
         some ⟨[⟨"2024-01-10", ⟨"45"⟩⟩]⟩,
         some ⟨"2024-01-09", some ⟨96, 90, 99⟩⟩⟩).db.spo2_data "2024-01-09" =
      some ⟨96, 90, 99, ⟨"2024-01-09", some ⟨96, 90, 99⟩⟩⟩ ∧
    findRow (syncCycle { DB.empty with oauth := some ⟨"tok", "ref", 999999, "sc"⟩ }
        0 none "2024-01-15"
        ⟨none, none, none, none,
         some ⟨[⟨"2024-01-10", ⟨"45"⟩⟩]⟩,
         some ⟨"2024-01-09", some ⟨96, 90, 99⟩⟩⟩).db.spo2_data "2024-01-15" =
      none ∧
    findRow (syncCycle { DB.empty with oauth := some ⟨"tok", "ref", 999999, "sc"⟩ }
        0 none "2024-01-15"
        ⟨none, none, none, none,
         some ⟨[⟨"2024-01-10", ⟨"45"⟩⟩]⟩,
         some ⟨"2024-01-09", some ⟨96, 90, 99⟩⟩⟩).db.daily_summary "2024-01-15" =
      some ⟨0, 0, 0, 0, none, 0, none, none, some "45", some 96⟩ ∧
    ("2024-01-10" : String) ≠ "2024-01-15" := by
  refine ⟨?_, ?_, ?_, ?_, ?_, ?_⟩ <;> decide
